import Mathlib

/-!
Shallow embedding of the usage-accounting and invoicing pipeline of the
wialon-billing-api repository (Go): snapshot reconstruction
(`createSnapshotsForConnectionRange`), daily charge calculation
(`CalculateDailyCharges`), currency conversion (`convertCurrency`),
average-unit computation (`calculateAverageUnits`), invoice generation
(`generateInvoiceForAccount`) and the batch retry loop
(`generateInvoicesWithRetry`).

Monetary amounts (Go `float64`) are modelled as rationals; Go's
`math.Round` (round half away from zero) is modelled exactly.
Persistence is modelled as an explicit record of stored rows.
-/

namespace WialonBilling

/-- Go `math.Round`: round to the nearest integer, halves away from zero. -/
def mathRound (x : ℚ) : ℚ :=
  if 0 ≤ x then (⌊x + 1/2⌋ : ℤ) else (⌈x - 1/2⌉ : ℤ)

/-- Go `math.Round(x*100)/100` — round to 2 decimal places, as the Go code does. -/
def round2 (x : ℚ) : ℚ :=
  mathRound (x * 100) / 100

/-- Leap year as computed by Go's `time` package (proleptic Gregorian). -/
def isLeapYear (y : ℤ) : Bool :=
  y % 4 == 0 && (y % 100 != 0 || y % 400 == 0)

/-- Number of days in a month, the value Go's
`time.Date(year, month+1, 0, …).Day()` produces for months 1..12. -/
def daysInMonth (y : ℤ) (m : ℕ) : ℕ :=
  if m = 2 then (if isLeapYear y then 29 else 28)
  else if m = 4 ∨ m = 6 ∨ m = 9 ∨ m = 11 then 30
  else 31

/-!
## Snapshot reconstruction (`createSnapshotsForConnectionRange`)

The Go code walks dates `[from..to]`; `usageByDate[last] = currentUsage`
and for `i` from `len(dates)-2` down to `0`:
`usage = usageByDate[next] - created_next + deleted_next`, clamped at 0.
We model the per-date `(created, deleted)` deltas as a list aligned with
the date list and return the list of reconstructed usages.
-/

/-- Backward reconstruction of the daily usage series.  `deltas` holds one
`(created, deleted)` pair per date; the result holds one usage per date,
with the last equal to `currentUsage` and each earlier day obtained from
the next day's usage and the next day's deltas, floored at 0. -/
def reconstructUsage (currentUsage : ℤ) : List (ℤ × ℤ) → List ℤ
  | [] => []
  | [_] => [currentUsage]
  | _ :: (c, d) :: rest =>
    let tail := reconstructUsage currentUsage ((c, d) :: rest)
    max 0 (tail.headD 0 - c + d) :: tail

/-!
## Currency conversion (`convertCurrency`)

Rates are stored per (currency, date); `none` models the repository
returning an error for a missing rate.  Dates are opaque codes.
-/

/-- A store of NBK exchange rates: currency code and date to rate,
`none` when no rate row exists for that pair. -/
def RateStore : Type := String → ℕ → Option ℚ

/-- Go `convertCurrency` routes every conversion through KZT: identity when
the currencies match, multiply by `rate(from)` when the source is not
KZT, divide by `rate(to)` when the target is not KZT; a missing rate is
an error (`none`). -/
def convertCurrency (rates : RateStore) (amount : ℚ) (fromCur toCur : String)
    (date : ℕ) : Option ℚ :=
  if fromCur = toCur then some amount
  else
    let amountInKZT? : Option ℚ :=
      if fromCur = "KZT" then some amount
      else
        match rates fromCur date with
        | none => none
        | some rate => some (amount * rate)
    match amountInKZT? with
    | none => none
    | some amountInKZT =>
      if toCur = "KZT" then some amountInKZT
      else
        match rates toCur date with
        | none => none
        | some rateToTarget => some (amountInKZT / rateToTarget)

/-!
## Data model

Field subsets of the Go structs that the billing computations read.
Dates inside snapshots are explicit (year, month, day) triples; the rate
date of an invoice run stays an opaque code.
-/

/-- Go struct `models.Module` (billing-relevant fields). -/
structure Module where
  id : ℕ
  name : String
  code : String
  unit : String
  price : ℚ
  currency : String
  pricingType : String
  deriving DecidableEq

/-- Go struct `models.AccountModule`: an assignment of a module to an account. -/
structure AccountModule where
  module : Module
  deriving DecidableEq

/-- Go struct `models.Account` (billing-relevant fields). -/
structure Account where
  id : ℕ
  name : String
  billingCurrency : String
  contractNumber : String
  deriving DecidableEq

/-- Go struct `models.Snapshot`: one row per (account, calendar date). -/
structure Snapshot where
  accountId : ℕ
  year : ℤ
  month : ℕ
  day : ℕ
  totalUnits : ℤ
  unitsCreated : ℤ
  unitsDeleted : ℤ
  unitsDeactivated : ℤ
  deriving DecidableEq

/-- Go struct `models.DailyCharge` (billing-relevant fields). -/
structure DailyCharge where
  accountId : ℕ
  moduleId : ℕ
  chargeYear : ℤ
  chargeMonth : ℕ
  chargeDay : ℕ
  totalUnits : ℤ
  moduleName : String
  pricingType : String
  unitPrice : ℚ
  daysInMonth : ℕ
  dailyCost : ℚ
  currency : String
  deriving DecidableEq

/-- Go struct `models.Invoice` (billing-relevant fields).  `seq` records the raw
sequential number from which `number` is formatted. -/
structure InvoiceRec where
  id : ℕ
  accountId : ℕ
  periodYear : ℤ
  periodMonth : ℕ
  number : String
  seq : ℕ
  totalAmount : ℚ
  currency : String
  status : String
  deriving DecidableEq

/-- Go struct `models.InvoiceLine` (billing-relevant fields). -/
structure InvoiceLineRec where
  invoiceId : ℕ
  moduleId : ℕ
  moduleName : String
  moduleCode : String
  moduleUnit : String
  quantity : ℚ
  unitPrice : ℚ
  totalPrice : ℚ
  currency : String
  pricingType : String
  deriving DecidableEq

/-- The stored state the invoice generator reads and writes.
`createdCount` tracks, per account, how many invoices were ever created. -/
structure DB where
  accountModules : ℕ → List AccountModule
  snapshots : List Snapshot
  rates : RateStore
  invoices : List InvoiceRec
  invoiceLines : List InvoiceLineRec
  createdCount : ℕ → ℕ
  nextInvoiceId : ℕ

/-!
## Repository operations (`internal/repository`)
-/

/-- Repository `GetAccountModules`. -/
def getAccountModules (db : DB) (accountId : ℕ) : List AccountModule :=
  db.accountModules accountId

/-- Repository `GetSnapshotsByAccountAndPeriod`: snapshots of one account whose date
falls in the given month. -/
def getSnapshotsByAccountAndPeriod (db : DB) (accountId : ℕ) (year : ℤ)
    (month : ℕ) : List Snapshot :=
  db.snapshots.filter
    (fun s => s.accountId == accountId && s.year == year && s.month == month)

/-- Does an invoice row belong to the given (account, period)? -/
def matchesPeriod (accountId : ℕ) (py : ℤ) (pm : ℕ) (inv : InvoiceRec) : Bool :=
  inv.accountId == accountId && inv.periodYear == py && inv.periodMonth == pm

/-- Repository `GetInvoiceByAccountAndPeriod`: the stored invoice for (account, period),
`none` when absent. -/
def getInvoiceByAccountAndPeriod (db : DB) (accountId : ℕ) (py : ℤ)
    (pm : ℕ) : Option InvoiceRec :=
  db.invoices.find? (matchesPeriod accountId py pm)

/-- Repository `DeleteInvoiceLines`: remove every line of the given invoice. -/
def deleteInvoiceLines (db : DB) (invoiceId : ℕ) : DB :=
  { db with invoiceLines := db.invoiceLines.filter (fun l => l.invoiceId != invoiceId) }

/-- Repository `DeleteInvoice`: remove the invoice row with the given id. -/
def deleteInvoice (db : DB) (invoiceId : ℕ) : DB :=
  { db with invoices := db.invoices.filter (fun i => i.id != invoiceId) }

/-- Modelled from the spec: `CountInvoicesByAccount` is called by
`generateInvoiceForAccount` but its body is not among the sources.  Per
the spec the per-account sequence increments even across regeneration and
a deleted invoice's number is never reused, so the count reflects the
invoices ever created for the account, not merely the surviving rows. -/
def countInvoicesByAccount (db : DB) (accountId : ℕ) : ℕ :=
  db.createdCount accountId

/-- Repository `CreateInvoice`: store a new invoice row, recording the creation and
advancing the id sequence. -/
def createInvoice (db : DB) (inv : InvoiceRec) : DB :=
  { db with
    invoices := db.invoices ++ [inv]
    createdCount := fun a => if a = inv.accountId then db.createdCount a + 1 else db.createdCount a
    nextInvoiceId := db.nextInvoiceId + 1 }

/-- Repository `CreateInvoiceLine`: store a new invoice line row. -/
def createInvoiceLine (db : DB) (line : InvoiceLineRec) : DB :=
  { db with invoiceLines := db.invoiceLines ++ [line] }

/-!
## Average active units (`calculateAverageUnits`)
-/

/-- Go `calculateAverageUnits`: sum of each stored snapshot's active units
(total minus deactivated, floored at 0) divided by the number of calendar
days in the month; 0 when no snapshots exist for the period. -/
def calculateAverageUnits (db : DB) (accountId : ℕ) (year : ℤ) (month : ℕ) : ℚ :=
  let snapshots := getSnapshotsByAccountAndPeriod db accountId year month
  if snapshots.isEmpty then 0
  else
    let totalActiveUnits : ℤ := (snapshots.map (fun s => max 0 (s.totalUnits - s.unitsDeactivated))).sum
    (totalActiveUnits : ℚ) / (daysInMonth year month : ℚ)

/-!
## Daily charges (`CalculateDailyCharges`)
-/

/-- Go `CalculateDailyCharges`: for one snapshot and the account's assigned
modules, the daily charge rows the Go code saves — the full price on the
1st of the month for `fixed` modules, `price × active_units / days_in_month`
every day for `per_unit` modules. -/
def CalculateDailyCharges (snapshot : Snapshot) (accountId : ℕ)
    (modules : List AccountModule) : List DailyCharge :=
  let dim := daysInMonth snapshot.year snapshot.month
  let dayOfMonth := snapshot.day
  let activeUnits := max 0 (snapshot.totalUnits - snapshot.unitsDeactivated)
  modules.foldr
    (fun am charges =>
      let module := am.module
      if module.id = 0 then charges
      else if module.pricingType = "fixed" then
        if dayOfMonth ≠ 1 then charges
        else
          { accountId := accountId, moduleId := module.id,
            chargeYear := snapshot.year, chargeMonth := snapshot.month,
            chargeDay := snapshot.day, totalUnits := activeUnits,
            moduleName := module.name, pricingType := module.pricingType,
            unitPrice := module.price, daysInMonth := dim,
            dailyCost := module.price, currency := module.currency } :: charges
      else
        { accountId := accountId, moduleId := module.id,
          chargeYear := snapshot.year, chargeMonth := snapshot.month,
          chargeDay := snapshot.day, totalUnits := activeUnits,
          moduleName := module.name, pricingType := module.pricingType,
          unitPrice := module.price, daysInMonth := dim,
          dailyCost := module.price * (activeUnits : ℚ) / (dim : ℚ),
          currency := module.currency } :: charges)
    []

/-!
## Invoice generation (`generateInvoiceForAccount`)
-/

/-- One invoice line, as the per-module loop of `generateInvoiceForAccount`
computes it.  `fixed`: quantity 1, unit price converted (kept unconverted
on conversion failure) and rounded to 2 decimals, total = unit price.
`per_unit`: quantity = `math.Round(avgUnits)`, unit price converted first
then rounded to 2 decimals, total = `round(quantity × unitPrice, 2)`. -/
def computeLine (rates : RateStore) (targetCurrency : String) (rateDate : ℕ)
    (avgUnits : ℚ) (module : Module) : InvoiceLineRec :=
  if module.pricingType = "fixed" then
    let unitPrice := module.price
    let unitPrice :=
      if module.currency ≠ targetCurrency then
        match convertCurrency rates unitPrice module.currency targetCurrency rateDate with
        | some converted => round2 converted
        | none => unitPrice
      else unitPrice
    { invoiceId := 0, moduleId := module.id, moduleName := module.name,
      moduleCode := module.code, moduleUnit := module.unit,
      quantity := 1, unitPrice := unitPrice, totalPrice := unitPrice,
      currency := targetCurrency, pricingType := module.pricingType }
  else
    let quantity := mathRound avgUnits
    let unitPrice := module.price
    let unitPrice :=
      if module.currency ≠ targetCurrency then
        match convertCurrency rates unitPrice module.currency targetCurrency rateDate with
        | some converted => round2 converted
        | none => unitPrice
      else unitPrice
    { invoiceId := 0, moduleId := module.id, moduleName := module.name,
      moduleCode := module.code, moduleUnit := module.unit,
      quantity := quantity, unitPrice := unitPrice,
      totalPrice := round2 (quantity * unitPrice),
      currency := targetCurrency, pricingType := module.pricingType }

/-- The per-module loop of `generateInvoiceForAccount`, one line per
assigned module. -/
def computeInvoiceLines (rates : RateStore) (targetCurrency : String)
    (rateDate : ℕ) (avgUnits : ℚ) (ams : List AccountModule) : List InvoiceLineRec :=
  ams.map (fun am => computeLine rates targetCurrency rateDate avgUnits am.module)

/-- The running `totalAmount` accumulated over the lines. -/
def invoiceTotal (lines : List InvoiceLineRec) : ℚ :=
  (lines.map (fun l => l.totalPrice)).sum

/-- Target currency determination: the account's billing currency,
defaulting to KZT when unset. -/
def targetCurrencyOf (account : Account) : String :=
  if account.billingCurrency = "" then "KZT" else account.billingCurrency

/-- The regeneration step: when an invoice already exists for
(account, period), delete its lines and then the invoice itself. -/
def invoicesAfterDelete (db : DB) (accountId : ℕ) (py : ℤ) (pm : ℕ) : DB :=
  match getInvoiceByAccountAndPeriod db accountId py pm with
  | some existing => deleteInvoice (deleteInvoiceLines db existing.id) existing.id
  | none => db

/-- Invoice number formatting: `{contract_number}/{seq}` when a contract
number exists, else the bare sequence number. -/
def invoiceNumber (contractNumber : String) (seq : ℕ) : String :=
  if contractNumber ≠ "" then contractNumber ++ "/" ++ toString seq
  else toString seq

/-- Store the computed lines under the freshly created invoice's id. -/
def createInvoiceLines (db : DB) (invoiceId : ℕ) (lines : List InvoiceLineRec) : DB :=
  lines.foldl (fun d l => createInvoiceLine d { l with invoiceId := invoiceId }) db

/-- Go `generateInvoiceForAccount`: no modules → no work; compute the average
units and the per-module lines; delete any prior invoice for the period;
a zero total creates nothing; otherwise create the invoice (status
`draft`, sequential number) and its lines.  Returns the new store and the
created invoice, `none` when generation was skipped. -/
def generateInvoiceForAccount (db : DB) (account : Account) (py : ℤ) (pm : ℕ)
    (rateDate : ℕ) : DB × Option InvoiceRec :=
  let ams := getAccountModules db account.id
  if ams.isEmpty then (db, none)
  else
    let avgUnits := calculateAverageUnits db account.id py pm
    let targetCurrency := targetCurrencyOf account
    let db1 := invoicesAfterDelete db account.id py pm
    let lines := computeInvoiceLines db1.rates targetCurrency rateDate avgUnits ams
    let totalAmount := invoiceTotal lines
    if totalAmount = 0 then (db1, none)
    else
      let seq := countInvoicesByAccount db1 account.id + 1
      let inv : InvoiceRec :=
        { id := db1.nextInvoiceId, accountId := account.id,
          periodYear := py, periodMonth := pm,
          number := invoiceNumber account.contractNumber seq, seq := seq,
          totalAmount := totalAmount, currency := targetCurrency, status := "draft" }
      let db2 := createInvoice db1 inv
      let db3 := createInvoiceLines db2 inv.id lines
      (db3, some inv)

/-!
## Batch retry loop (`generateInvoicesWithRetry`)

The scheduled job, as an event trace: each attempt fetches rates, checks
availability, and either generates the invoices (and stops) or sleeps an
hour; after 24 failed attempts it generates without conversion.
`available k` models `CheckRatesAvailable` succeeding on attempt `k`.
-/

/-- Observable events of one `generateInvoicesWithRetry` run. -/
inductive BillingEvent where
  | fetchRates (attempt : ℕ)
  | checkRates (attempt : ℕ) (ok : Bool)
  | generateInvoices (withRates : Bool)
  | sleepHour (attempt : ℕ)
  deriving DecidableEq

/-- The retry loop with `remaining` attempts left, starting at `attempt`. -/
def retryAux (available : ℕ → Bool) : ℕ → ℕ → List BillingEvent
  | _, 0 => [BillingEvent.generateInvoices false]
  | attempt, remaining + 1 =>
    BillingEvent.fetchRates attempt ::
    BillingEvent.checkRates attempt (available attempt) ::
    (if available attempt then [BillingEvent.generateInvoices true]
     else BillingEvent.sleepHour attempt :: retryAux available (attempt + 1) remaining)

/-- Go `generateInvoicesWithRetry`: up to 24 hourly attempts starting at 1. -/
def generateInvoicesWithRetry (available : ℕ → Bool) : List BillingEvent :=
  retryAux available 1 24

/-- How many invoice-generation calls a trace contains. -/
def countGenerate (events : List BillingEvent) : ℕ :=
  (events.filter (fun e => match e with
    | BillingEvent.generateInvoices _ => true
    | _ => false)).length

/-- How many rate-availability checks a trace contains. -/
def countChecks (events : List BillingEvent) : ℕ :=
  (events.filter (fun e => match e with
    | BillingEvent.checkRates _ _ => true
    | _ => false)).length

/-!
## Concrete sample data

Closed instances used to exercise the definitions: the spec's concrete
scenario (2.00 EUR per-unit module, 28-day February with a constant 100
active units, EUR→KZT rate 500) and small auxiliary stores.
-/

/-- A rate store holding only EUR→KZT = 500 on every date. -/
def euroRates : RateStore := fun currency _ => if currency = "EUR" then some 500 else none

/-- A per-unit module priced 2.00 EUR. -/
def euroModule : Module :=
  { id := 1, name := "Wialon Hosting", code := "WH", unit := "obj",
    price := 2, currency := "EUR", pricingType := "per_unit" }

/-- A KZT-billed account with contract number C-42. -/
def kztAccount : Account :=
  { id := 1, name := "Acme", billingCurrency := "KZT", contractNumber := "C-42" }

/-- February 2023 usage: 100 active units on each of the 28 days. -/
def febSnapshots : List Snapshot :=
  (List.range 28).map (fun i =>
    { accountId := 1, year := 2023, month := 2, day := i + 1,
      totalUnits := 100, unitsCreated := 0, unitsDeleted := 0, unitsDeactivated := 0 })

/-- Store for the concrete invoice scenario: one account, one module, a
full February of snapshots, the EUR rate, no invoices yet. -/
def febDB : DB :=
  { accountModules := fun a => if a = 1 then [{ module := euroModule }] else []
    snapshots := febSnapshots
    rates := euroRates
    invoices := []
    invoiceLines := []
    createdCount := fun _ => 0
    nextInvoiceId := 1 }

/-- A store with no snapshots and no modules at all. -/
def emptyDB : DB :=
  { accountModules := fun _ => []
    snapshots := []
    rates := fun _ _ => none
    invoices := []
    invoiceLines := []
    createdCount := fun _ => 0
    nextInvoiceId := 1 }

/-- The concrete scenario with the usage data removed: the account keeps
its per-unit module but the period has no snapshots, so the computed
total is zero. -/
def zeroUsageDB : DB := { febDB with snapshots := [] }

/-- A stale stored invoice for (account 1, February 2023). -/
def staleInvoice : InvoiceRec :=
  { id := 7, accountId := 1, periodYear := 2023, periodMonth := 2,
    number := "C-42/1", seq := 1, totalAmount := 55, currency := "KZT",
    status := "draft" }

/-- Zero-usage store that still holds a previously generated invoice and
its line for the period. -/
def staleDB : DB :=
  { zeroUsageDB with
    invoices := [staleInvoice]
    invoiceLines := [{ invoiceId := 7, moduleId := 1, moduleName := "Wialon Hosting",
                       moduleCode := "WH", moduleUnit := "obj", quantity := 1,
                       unitPrice := 55, totalPrice := 55, currency := "KZT",
                       pricingType := "per_unit" }]
    createdCount := fun a => if a = 1 then 1 else 0
    nextInvoiceId := 8 }

/-- A fixed-price module billed in KZT (no conversion, no rounding). -/
def fixedModule : Module :=
  { id := 3, name := "Fixed Pack", code := "FP", unit := "pc",
    price := 100, currency := "KZT", pricingType := "fixed" }

/-- Store with one account holding only the fixed KZT module and no
usage data or invoices: the simplest store on which invoice generation
succeeds. -/
def fixedDB : DB :=
  { accountModules := fun a => if a = 1 then [{ module := fixedModule }] else []
    snapshots := []
    rates := fun _ _ => none
    invoices := []
    invoiceLines := []
    createdCount := fun _ => 0
    nextInvoiceId := 1 }

/-- Rate availability that first succeeds on attempt 3. -/
def availableAt3 : ℕ → Bool := fun k => k == 3

/-- Rate availability that never succeeds. -/
def neverAvailable : ℕ → Bool := fun _ => false

/-!
# Theorems

## Snapshot reconstruction
-/

theorem reconstructUsage_ne_nil (u : ℤ) (a : ℤ × ℤ) (l : List (ℤ × ℤ)) :
    reconstructUsage u (a :: l) ≠ [] := by
  cases l with
  | nil => simp [reconstructUsage]
  | cons b t =>
    obtain ⟨c, d⟩ := b
    simp [reconstructUsage]

theorem reconstructUsage_length (u : ℤ) :
    ∀ l : List (ℤ × ℤ), (reconstructUsage u l).length = l.length := by
  intro l
  induction l with
  | nil => rfl
  | cons a rest ih =>
    cases rest with
    | nil => rfl
    | cons b t =>
      obtain ⟨c, d⟩ := b
      simp only [reconstructUsage, List.length_cons] at ih ⊢
      omega

theorem reconstructUsage_getLast (u : ℤ) :
    ∀ l : List (ℤ × ℤ), l ≠ [] → (reconstructUsage u l).getLast? = some u := by
  intro l
  induction l with
  | nil => intro h; exact absurd rfl h
  | cons a rest ih =>
    intro _
    cases rest with
    | nil => simp [reconstructUsage]
    | cons b t =>
      obtain ⟨c, d⟩ := b
      obtain ⟨y, ys, htail⟩ := List.exists_cons_of_ne_nil (reconstructUsage_ne_nil u (c, d) t)
      simp only [reconstructUsage]
      rw [htail, List.getLast?_cons_cons, ← htail]
      exact ih (by simp)

theorem reconstructUsage_step (u : ℤ) :
    ∀ (l : List (ℤ × ℤ)) (i : ℕ), i + 1 < l.length →
      (reconstructUsage u l).getD i 0 =
        max 0 ((reconstructUsage u l).getD (i + 1) 0
          - (l.getD (i + 1) (0, 0)).1 + (l.getD (i + 1) (0, 0)).2) := by
  intro l
  induction l with
  | nil => intro i h; simp at h
  | cons a rest ih =>
    intro i h
    cases rest with
    | nil => simp at h
    | cons b t =>
      obtain ⟨c, d⟩ := b
      cases i with
      | zero =>
        obtain ⟨y, ys, htail⟩ := List.exists_cons_of_ne_nil (reconstructUsage_ne_nil u (c, d) t)
        simp only [reconstructUsage]
        rw [htail]
        simp [List.getD]
      | succ j =>
        simp only [reconstructUsage, List.getD_cons_succ]
        exact ih j (by simpa using h)

/-- C1.  Backward snapshot reconstruction: the last date carries
`current_usage`; every interior date `i` satisfies
`usage[i] = max(0, usage[i+1] − created_{i+1} + deleted_{i+1})`; the
spec's backfill scenario (`current_usage = 50`, day T created=5,
deleted=2) gives `usage[T-1] = 47`; a range of length 1 performs only
the single assignment `usage[to] = current_usage`. -/
theorem C1_backward_reconstruction (u : ℤ) (deltas : List (ℤ × ℤ)) :
    (deltas ≠ [] → (reconstructUsage u deltas).getLast? = some u) ∧
    (∀ i : ℕ, i + 1 < deltas.length →
      (reconstructUsage u deltas).getD i 0 =
        max 0 ((reconstructUsage u deltas).getD (i + 1) 0
          - (deltas.getD (i + 1) (0, 0)).1 + (deltas.getD (i + 1) (0, 0)).2)) ∧
    reconstructUsage 50 [(0, 0), (5, 2)] = [47, 50] ∧
    (∀ c d : ℤ, reconstructUsage u [(c, d)] = [u]) := by
  refine ⟨reconstructUsage_getLast u deltas, reconstructUsage_step u deltas, by decide,
    fun c d => rfl⟩

/-- Witness for C1 at the spec's backfill scenario. -/
theorem C1_backward_reconstruction_witness :
    (reconstructUsage 50 [(0, 0), (5, 2)]).getLast? = some 50 ∧
    (reconstructUsage 50 [(0, 0), (5, 2)]).getD 0 0 =
      max 0 ((reconstructUsage 50 [(0, 0), (5, 2)]).getD 1 0
        - (([(0, 0), (5, 2)] : List (ℤ × ℤ)).getD 1 (0, 0)).1
        + (([(0, 0), (5, 2)] : List (ℤ × ℤ)).getD 1 (0, 0)).2) ∧
    reconstructUsage 50 [(0, 0), (5, 2)] = [47, 50] ∧
    reconstructUsage 50 [(9, 9)] = [50] :=
  ⟨(C1_backward_reconstruction 50 [(0, 0), (5, 2)]).1 (by decide),
   (C1_backward_reconstruction 50 [(0, 0), (5, 2)]).2.1 0 (by decide),
   (C1_backward_reconstruction 50 [(0, 0), (5, 2)]).2.2.1,
   (C1_backward_reconstruction 50 [(9, 9)]).2.2.2 9 9⟩

/-!
## Currency conversion
-/

/-- C4.  Currency conversion through the fixed KZT pivot: identity when
the currencies match; otherwise multiply by `rate(from→KZT, date)` when
the source is not KZT and divide by `rate(to→KZT, date)` when the target
is not KZT, and the conversion errors exactly when a needed rate for
that currency/date is absent from the store. -/
theorem C4_convert_via_pivot (rates : RateStore) (amount : ℚ) (fromCur toCur : String)
    (date : ℕ) :
    (fromCur = toCur → convertCurrency rates amount fromCur toCur date = some amount) ∧
    (fromCur ≠ toCur →
      ((convertCurrency rates amount fromCur toCur date = none) ↔
        ((fromCur ≠ "KZT" ∧ rates fromCur date = none) ∨
         (toCur ≠ "KZT" ∧ rates toCur date = none))) ∧
      (∀ r : ℚ, fromCur ≠ "KZT" → toCur = "KZT" → rates fromCur date = some r →
        convertCurrency rates amount fromCur toCur date = some (amount * r)) ∧
      (∀ r : ℚ, fromCur = "KZT" → toCur ≠ "KZT" → rates toCur date = some r →
        convertCurrency rates amount fromCur toCur date = some (amount / r)) ∧
      (∀ rF rT : ℚ, fromCur ≠ "KZT" → toCur ≠ "KZT" →
        rates fromCur date = some rF → rates toCur date = some rT →
        convertCurrency rates amount fromCur toCur date = some (amount * rF / rT))) := by
  constructor
  · intro h
    simp [convertCurrency, h]
  · intro hne
    refine ⟨?_, ?_, ?_, ?_⟩
    · by_cases hf : fromCur = "KZT"
      · by_cases ht : toCur = "KZT"
        · exact absurd (hf.trans ht.symm) hne
        · subst hf
          cases hr : rates toCur date <;> simp [convertCurrency, hne, ht, hr, Ne.symm hne]
      · by_cases ht : toCur = "KZT"
        · subst ht
          cases hr : rates fromCur date <;> simp [convertCurrency, hne, hf, hr]
        · cases hrF : rates fromCur date <;> cases hrT : rates toCur date <;>
            simp [convertCurrency, hne, hf, ht, hrF, hrT]
    · intro r hf ht hr
      subst ht
      simp [convertCurrency, hne, hf, hr]
    · intro r hf ht hr
      subst hf
      simp [convertCurrency, hne, ht, hr, Ne.symm hne]
    · intro rF rT hf ht hrF hrT
      simp [convertCurrency, hne, hf, ht, hrF, hrT]

/-- Witness for C4 on the concrete EUR→KZT store. -/
theorem C4_convert_via_pivot_witness :
    convertCurrency euroRates 7 "USD" "USD" 0 = some 7 ∧
    (convertCurrency euroRates 7 "USD" "KZT" 0 = none ↔
      (("USD" ≠ "KZT" ∧ euroRates "USD" 0 = none) ∨
       ("KZT" ≠ "KZT" ∧ euroRates "KZT" 0 = none))) ∧
    convertCurrency euroRates 2 "EUR" "KZT" 0 = some (2 * 500) ∧
    convertCurrency euroRates 1000 "KZT" "EUR" 0 = some (1000 / 500) :=
  ⟨(C4_convert_via_pivot euroRates 7 "USD" "USD" 0).1 rfl,
   ((C4_convert_via_pivot euroRates 7 "USD" "KZT" 0).2 (by decide)).1,
   ((C4_convert_via_pivot euroRates 2 "EUR" "KZT" 0).2 (by decide)).2.1 500
     (by decide) rfl rfl,
   ((C4_convert_via_pivot euroRates 1000 "KZT" "EUR" 0).2 (by decide)).2.2.1 500
     rfl (by decide) rfl⟩

/-!
## Daily charges
-/

theorem daysInMonth_pos (y : ℤ) (m : ℕ) : 0 < daysInMonth y m := by
  unfold daysInMonth
  split
  · split <;> norm_num
  · split <;> norm_num

/-- C5.  Per-unit daily amortization: every daily charge of a per_unit
module costs `price × active_units / days_in_month` where
`active_units = max(0, total − deactivated)`, and over a full month of
constant unit count the daily charges sum to `price × active_units`. -/
theorem C5_per_unit_amortization (accountId : ℕ) (am : AccountModule) (y : ℤ) (mo : ℕ)
    (total deact : ℤ)
    (hp : am.module.pricingType ≠ "fixed") (hid : am.module.id ≠ 0) :
    (∀ (day : ℕ) (created deleted : ℤ),
      (CalculateDailyCharges
          { accountId := accountId, year := y, month := mo, day := day,
            totalUnits := total, unitsCreated := created, unitsDeleted := deleted,
            unitsDeactivated := deact } accountId [am]).map
        (fun ch => ch.dailyCost) =
      [am.module.price * ((max 0 (total - deact) : ℤ) : ℚ) / (daysInMonth y mo : ℚ)]) ∧
    ((List.range (daysInMonth y mo)).map (fun i =>
        ((CalculateDailyCharges
            { accountId := accountId, year := y, month := mo, day := i + 1,
              totalUnits := total, unitsCreated := 0, unitsDeleted := 0,
              unitsDeactivated := deact } accountId [am]).map
          (fun ch => ch.dailyCost)).sum)).sum
      = am.module.price * ((max 0 (total - deact) : ℤ) : ℚ) := by
  have hsingle : ∀ (day : ℕ) (created deleted : ℤ),
      (CalculateDailyCharges
          { accountId := accountId, year := y, month := mo, day := day,
            totalUnits := total, unitsCreated := created, unitsDeleted := deleted,
            unitsDeactivated := deact } accountId [am]).map
        (fun ch => ch.dailyCost) =
      [am.module.price * ((max 0 (total - deact) : ℤ) : ℚ) / (daysInMonth y mo : ℚ)] := by
    intro day created deleted
    simp [CalculateDailyCharges, hid, hp]
  refine ⟨hsingle, ?_⟩
  have hD : ((daysInMonth y mo : ℕ) : ℚ) ≠ 0 := by
    exact_mod_cast (daysInMonth_pos y mo).ne'
  calc ((List.range (daysInMonth y mo)).map (fun i =>
        ((CalculateDailyCharges
            { accountId := accountId, year := y, month := mo, day := i + 1,
              totalUnits := total, unitsCreated := 0, unitsDeleted := 0,
              unitsDeactivated := deact } accountId [am]).map
          (fun ch => ch.dailyCost)).sum)).sum
      = ((List.range (daysInMonth y mo)).map (fun _ =>
          am.module.price * ((max 0 (total - deact) : ℤ) : ℚ) / (daysInMonth y mo : ℚ))).sum := by
        refine congrArg List.sum (List.map_congr_left ?_)
        intro i _
        rw [hsingle (i + 1) 0 0]
        simp
    _ = (daysInMonth y mo : ℚ) *
          (am.module.price * ((max 0 (total - deact) : ℤ) : ℚ) / (daysInMonth y mo : ℚ)) := by
        simp [List.map_const', List.sum_replicate, nsmul_eq_mul]
    _ = am.module.price * ((max 0 (total - deact) : ℤ) : ℚ) := by
        rw [mul_comm, div_mul_cancel₀ _ hD]

/-- Witness for C5: 2 EUR per unit, 100 units, February 2023. -/
theorem C5_per_unit_amortization_witness :
    ((CalculateDailyCharges
        { accountId := 1, year := 2023, month := 2, day := 5,
          totalUnits := 100, unitsCreated := 0, unitsDeleted := 0,
          unitsDeactivated := 0 } 1 [{ module := euroModule }]).map
      (fun ch => ch.dailyCost) =
      [euroModule.price * ((max 0 ((100 : ℤ) - 0) : ℤ) : ℚ) / (daysInMonth 2023 2 : ℚ)]) ∧
    ((List.range (daysInMonth 2023 2)).map (fun i =>
        ((CalculateDailyCharges
            { accountId := 1, year := 2023, month := 2, day := i + 1,
              totalUnits := 100, unitsCreated := 0, unitsDeleted := 0,
              unitsDeactivated := 0 } 1 [{ module := euroModule }]).map
          (fun ch => ch.dailyCost)).sum)).sum
      = euroModule.price * ((max 0 ((100 : ℤ) - 0) : ℤ) : ℚ) :=
  ⟨(C5_per_unit_amortization 1 { module := euroModule } 2023 2 100 0
      (by decide) (by decide)).1 5 0 0,
   (C5_per_unit_amortization 1 { module := euroModule } 2023 2 100 0
      (by decide) (by decide)).2⟩

/-- C6.  Fixed-module daily charging: a fixed module produces a charge
carrying the full module price exactly when the snapshot's date is the
first calendar day of its month, and no charge on any other day. -/
theorem C6_fixed_module_first_day (snap : Snapshot) (accountId : ℕ) (am : AccountModule)
    (hp : am.module.pricingType = "fixed") (hid : am.module.id ≠ 0) :
    (snap.day = 1 →
      CalculateDailyCharges snap accountId [am] =
        [{ accountId := accountId, moduleId := am.module.id,
           chargeYear := snap.year, chargeMonth := snap.month,
           chargeDay := snap.day,
           totalUnits := max 0 (snap.totalUnits - snap.unitsDeactivated),
           moduleName := am.module.name, pricingType := am.module.pricingType,
           unitPrice := am.module.price,
           daysInMonth := daysInMonth snap.year snap.month,
           dailyCost := am.module.price, currency := am.module.currency }]) ∧
    (snap.day ≠ 1 → CalculateDailyCharges snap accountId [am] = []) := by
  constructor
  · intro h1
    simp [CalculateDailyCharges, hid, hp, h1]
  · intro h1
    simp [CalculateDailyCharges, hid, hp, h1]

/-- Witness for C6: a fixed module charged on Feb 1 and skipped on Feb 2. -/
theorem C6_fixed_module_first_day_witness :
    (CalculateDailyCharges
        { accountId := 1, year := 2023, month := 2, day := 1,
          totalUnits := 100, unitsCreated := 0, unitsDeleted := 0,
          unitsDeactivated := 0 } 1
        [{ module := { id := 2, name := "SMS", code := "S", unit := "pc",
                       price := 30, currency := "KZT", pricingType := "fixed" } }] =
      [{ accountId := 1, moduleId := 2, chargeYear := 2023, chargeMonth := 2,
         chargeDay := 1, totalUnits := 100, moduleName := "SMS",
         pricingType := "fixed", unitPrice := 30, daysInMonth := 28,
         dailyCost := 30, currency := "KZT" }]) ∧
    (CalculateDailyCharges
        { accountId := 1, year := 2023, month := 2, day := 2,
          totalUnits := 100, unitsCreated := 0, unitsDeleted := 0,
          unitsDeactivated := 0 } 1
        [{ module := { id := 2, name := "SMS", code := "S", unit := "pc",
                       price := 30, currency := "KZT", pricingType := "fixed" } }] = []) := by
  constructor
  · have := (C6_fixed_module_first_day
        { accountId := 1, year := 2023, month := 2, day := 1,
          totalUnits := 100, unitsCreated := 0, unitsDeleted := 0, unitsDeactivated := 0 } 1
        { module := { id := 2, name := "SMS", code := "S", unit := "pc",
                      price := 30, currency := "KZT", pricingType := "fixed" } }
        rfl (by decide)).1 rfl
    simpa [daysInMonth, isLeapYear] using this
  · exact (C6_fixed_module_first_day
        { accountId := 1, year := 2023, month := 2, day := 2,
          totalUnits := 100, unitsCreated := 0, unitsDeleted := 0, unitsDeactivated := 0 } 1
        { module := { id := 2, name := "SMS", code := "S", unit := "pc",
                      price := 30, currency := "KZT", pricingType := "fixed" } }
        rfl (by decide)).2 (by decide)

/-!
## Average active units
-/

/-- C7.  The period average equals the sum of each stored snapshot's
active units (total minus deactivated, floored at 0) divided by the
number of calendar days in the month — not by the number of snapshots —
and it is 0 when no snapshots exist, without error. -/
theorem C7_average_active_units (db : DB) (accountId : ℕ) (y : ℤ) (m : ℕ) :
    calculateAverageUnits db accountId y m =
      ((((getSnapshotsByAccountAndPeriod db accountId y m).map
          (fun s => max 0 (s.totalUnits - s.unitsDeactivated))).sum : ℤ) : ℚ)
        / (daysInMonth y m : ℚ) ∧
    calculateAverageUnits emptyDB accountId y m = 0 ∧
    calculateAverageUnits febDB 1 2023 2 = 100 := by
  refine ⟨?_, ?_, by
    norm_num [calculateAverageUnits, getSnapshotsByAccountAndPeriod, febDB, febSnapshots,
      daysInMonth, isLeapYear, List.range_succ]⟩
  · by_cases h : (getSnapshotsByAccountAndPeriod db accountId y m).isEmpty
    · rw [List.isEmpty_iff] at h
      simp [calculateAverageUnits, h]
    · simp [calculateAverageUnits, h]
  · simp [calculateAverageUnits, getSnapshotsByAccountAndPeriod, emptyDB]

/-!
## Batch retry policy
-/

theorem retryAux_ne_nil (available : ℕ → Bool) (attempt remaining : ℕ) :
    retryAux available attempt remaining ≠ [] := by
  cases remaining <;> simp [retryAux]

theorem retryAux_succ_true (available : ℕ → Bool) (attempt r : ℕ)
    (h : available attempt = true) :
    retryAux available attempt (r + 1) =
      [BillingEvent.fetchRates attempt, BillingEvent.checkRates attempt true,
       BillingEvent.generateInvoices true] := by
  simp [retryAux, h]

theorem retryAux_succ_false (available : ℕ → Bool) (attempt r : ℕ)
    (h : available attempt = false) :
    retryAux available attempt (r + 1) =
      BillingEvent.fetchRates attempt :: BillingEvent.checkRates attempt false ::
      BillingEvent.sleepHour attempt :: retryAux available (attempt + 1) r := by
  simp [retryAux, h]

theorem countChecks_fetch (a : ℕ) (l : List BillingEvent) :
    countChecks (BillingEvent.fetchRates a :: l) = countChecks l := by
  simp [countChecks, List.filter]

theorem countChecks_check (a : ℕ) (b : Bool) (l : List BillingEvent) :
    countChecks (BillingEvent.checkRates a b :: l) = countChecks l + 1 := by
  simp [countChecks, List.filter]

theorem countChecks_sleep (a : ℕ) (l : List BillingEvent) :
    countChecks (BillingEvent.sleepHour a :: l) = countChecks l := by
  simp [countChecks, List.filter]

theorem countChecks_gen (b : Bool) (l : List BillingEvent) :
    countChecks (BillingEvent.generateInvoices b :: l) = countChecks l := by
  simp [countChecks, List.filter]

theorem countGenerate_fetch (a : ℕ) (l : List BillingEvent) :
    countGenerate (BillingEvent.fetchRates a :: l) = countGenerate l := by
  simp [countGenerate, List.filter]

theorem countGenerate_check (a : ℕ) (b : Bool) (l : List BillingEvent) :
    countGenerate (BillingEvent.checkRates a b :: l) = countGenerate l := by
  simp [countGenerate, List.filter]

theorem countGenerate_sleep (a : ℕ) (l : List BillingEvent) :
    countGenerate (BillingEvent.sleepHour a :: l) = countGenerate l := by
  simp [countGenerate, List.filter]

theorem countGenerate_gen (b : Bool) (l : List BillingEvent) :
    countGenerate (BillingEvent.generateInvoices b :: l) = countGenerate l + 1 := by
  simp [countGenerate, List.filter]

theorem getLast?_cons_of_ne_nil {α : Type} (e : α) (l : List α) (h : l ≠ []) :
    (e :: l).getLast? = l.getLast? := by
  obtain ⟨y, ys, rfl⟩ := List.exists_cons_of_ne_nil h
  exact List.getLast?_cons_cons

theorem countGenerate_retryAux (available : ℕ → Bool) :
    ∀ remaining attempt : ℕ, countGenerate (retryAux available attempt remaining) = 1 := by
  intro remaining
  induction remaining with
  | zero => intro attempt; rfl
  | succ r ih =>
    intro attempt
    by_cases h : available attempt = true
    · rw [retryAux_succ_true available attempt r h]
      rfl
    · have h' : available attempt = false := by simpa using h
      rw [retryAux_succ_false available attempt r h', countGenerate_fetch,
        countGenerate_check, countGenerate_sleep]
      exact ih (attempt + 1)

theorem countChecks_retryAux_le (available : ℕ → Bool) :
    ∀ remaining attempt : ℕ, countChecks (retryAux available attempt remaining) ≤ remaining := by
  intro remaining
  induction remaining with
  | zero => intro attempt; exact Nat.le_refl 0
  | succ r ih =>
    intro attempt
    by_cases h : available attempt = true
    · rw [retryAux_succ_true available attempt r h]
      simp [countChecks, List.filter]
    · have h' : available attempt = false := by simpa using h
      rw [retryAux_succ_false available attempt r h', countChecks_fetch,
        countChecks_check, countChecks_sleep]
      have := ih (attempt + 1)
      omega

theorem retryAux_all_fail (available : ℕ → Bool) :
    ∀ remaining attempt : ℕ,
      (∀ k, attempt ≤ k → k < attempt + remaining → available k = false) →
      countChecks (retryAux available attempt remaining) = remaining ∧
      (retryAux available attempt remaining).getLast? =
        some (BillingEvent.generateInvoices false) := by
  intro remaining
  induction remaining with
  | zero => intro attempt _; exact ⟨rfl, rfl⟩
  | succ r ih =>
    intro attempt hfail
    have h' : available attempt = false := hfail attempt (Nat.le_refl _) (by omega)
    have hr := ih (attempt + 1) (fun k hk1 hk2 => hfail k (by omega) (by omega))
    rw [retryAux_succ_false available attempt r h']
    constructor
    · rw [countChecks_fetch, countChecks_check, countChecks_sleep, hr.1]
    · rw [getLast?_cons_of_ne_nil _ _ (by simp),
        getLast?_cons_of_ne_nil _ _ (by simp),
        getLast?_cons_of_ne_nil _ _ (retryAux_ne_nil available (attempt + 1) r)]
      exact hr.2

theorem retryAux_first_success (available : ℕ → Bool) :
    ∀ remaining attempt k : ℕ,
      attempt ≤ k → k < attempt + remaining → available k = true →
      (∀ j, attempt ≤ j → j < k → available j = false) →
      countChecks (retryAux available attempt remaining) = k - attempt + 1 ∧
      (retryAux available attempt remaining).getLast? =
        some (BillingEvent.generateInvoices true) := by
  intro remaining
  induction remaining with
  | zero => intro attempt k h1 h2 _ _; omega
  | succ r ih =>
    intro attempt k h1 h2 hk hmin
    by_cases heq : k = attempt
    · subst heq
      rw [retryAux_succ_true available k r hk]
      constructor
      · simp [countChecks, List.filter]
      · rfl
    · have hlt : attempt < k := by omega
      have h' : available attempt = false := hmin attempt (Nat.le_refl _) hlt
      have hr := ih (attempt + 1) k (by omega) (by omega) hk
        (fun j hj1 hj2 => hmin j (by omega) hj2)
      rw [retryAux_succ_false available attempt r h']
      constructor
      · rw [countChecks_fetch, countChecks_check, countChecks_sleep, hr.1]
        omega
      · rw [getLast?_cons_of_ne_nil _ _ (by simp),
          getLast?_cons_of_ne_nil _ _ (by simp),
          getLast?_cons_of_ne_nil _ _ (retryAux_ne_nil available (attempt + 1) r)]
        exact hr.2

/-- C9.  Batch retry policy: a run performs at most 24 rate checks and
invokes invoice generation exactly once; when every hourly attempt finds
the rate unavailable the run still ends by generating without
conversion, and when attempt `k` is the first to find the rate it
generates with rates after exactly `k` checks. -/
theorem C9_retry_policy (available : ℕ → Bool) :
    countGenerate (generateInvoicesWithRetry available) = 1 ∧
    countChecks (generateInvoicesWithRetry available) ≤ 24 ∧
    ((∀ k, 1 ≤ k → k ≤ 24 → available k = false) →
      countChecks (generateInvoicesWithRetry available) = 24 ∧
      (generateInvoicesWithRetry available).getLast? =
        some (BillingEvent.generateInvoices false)) ∧
    (∀ k, 1 ≤ k → k ≤ 24 → available k = true →
      (∀ j, 1 ≤ j → j < k → available j = false) →
      countChecks (generateInvoicesWithRetry available) = k ∧
      (generateInvoicesWithRetry available).getLast? =
        some (BillingEvent.generateInvoices true)) := by
  refine ⟨countGenerate_retryAux available 24 1,
    countChecks_retryAux_le available 24 1, ?_, ?_⟩
  · intro hfail
    exact retryAux_all_fail available 24 1 (fun k hk1 hk2 => hfail k hk1 (by omega))
  · intro k hk1 hk2 hk hmin
    have := retryAux_first_success available 24 1 k hk1 (by omega) hk hmin
    have hcount : k - 1 + 1 = k := by omega
    rw [hcount] at this
    exact this

/-- Witness for C9: first success at attempt 3, and the never-available run. -/
theorem C9_retry_policy_witness :
    countGenerate (generateInvoicesWithRetry availableAt3) = 1 ∧
    countChecks (generateInvoicesWithRetry availableAt3) = 3 ∧
    (generateInvoicesWithRetry availableAt3).getLast? =
      some (BillingEvent.generateInvoices true) ∧
    countChecks (generateInvoicesWithRetry neverAvailable) = 24 ∧
    (generateInvoicesWithRetry neverAvailable).getLast? =
      some (BillingEvent.generateInvoices false) := by
  have h3 := (C9_retry_policy availableAt3).2.2.2 3 (by decide) (by decide) (by decide)
    (fun j h1 h2 => by interval_cases j <;> decide)
  have hn := (C9_retry_policy neverAvailable).2.2.1 (fun k _ _ => rfl)
  exact ⟨(C9_retry_policy availableAt3).1, h3.1, h3.2, hn.1, hn.2⟩

/-!
## Invoice line computation
-/

/-- C2.  Per-unit line with a foreign-currency module: the line is
computed convert-then-round-then-multiply — quantity is the rounded
average, the unit price is the converted module price rounded to 2
decimals, the line total is `round(quantity × unit_price, 2)`; the
concrete scenario (2.00 EUR, constant 100 units over 28-day February,
EUR→KZT 500) yields quantity 100, unit price 1000.00 KZT, line total
100000.00 KZT. -/
theorem C2_per_unit_line_order (rates : RateStore) (target : String) (rateDate : ℕ)
    (avg : ℚ) (m : Module) (c : ℚ)
    (hp : m.pricingType ≠ "fixed") (hc : m.currency ≠ target)
    (hconv : convertCurrency rates m.price m.currency target rateDate = some c) :
    computeLine rates target rateDate avg m =
      { invoiceId := 0, moduleId := m.id, moduleName := m.name, moduleCode := m.code,
        moduleUnit := m.unit, quantity := mathRound avg, unitPrice := round2 c,
        totalPrice := round2 (mathRound avg * round2 c),
        currency := target, pricingType := m.pricingType } ∧
    (computeInvoiceLines euroRates "KZT" 0 (calculateAverageUnits febDB 1 2023 2)
        (getAccountModules febDB 1)).map (fun l => (l.quantity, l.unitPrice, l.totalPrice)) =
      [(100, 1000, 100000)] := by
  constructor
  · simp [computeLine, hp, hc, hconv]
  · have havg : calculateAverageUnits febDB 1 2023 2 = 100 := by
      norm_num [calculateAverageUnits, getSnapshotsByAccountAndPeriod, febDB, febSnapshots,
        daysInMonth, isLeapYear, List.range_succ]
    rw [havg]
    simp +decide [computeInvoiceLines, computeLine, getAccountModules, febDB, euroModule,
      euroRates, convertCurrency, mathRound, round2]
    norm_num [Int.floor_eq_iff]

/-- Witness for C2 at the spec's concrete scenario. -/
theorem C2_per_unit_line_order_witness :
    computeLine euroRates "KZT" 0 100 euroModule =
      { invoiceId := 0, moduleId := euroModule.id, moduleName := euroModule.name,
        moduleCode := euroModule.code, moduleUnit := euroModule.unit,
        quantity := mathRound 100, unitPrice := round2 1000,
        totalPrice := round2 (mathRound 100 * round2 1000),
        currency := "KZT", pricingType := euroModule.pricingType } ∧
    (computeInvoiceLines euroRates "KZT" 0 (calculateAverageUnits febDB 1 2023 2)
        (getAccountModules febDB 1)).map (fun l => (l.quantity, l.unitPrice, l.totalPrice)) =
      [(100, 1000, 100000)] :=
  ⟨(C2_per_unit_line_order euroRates "KZT" 0 100 euroModule 1000
      (by decide) (by decide)
      (by simp +decide [convertCurrency, euroRates, euroModule]; norm_num)).1,
   (C2_per_unit_line_order euroRates "KZT" 0 100 euroModule 1000
      (by decide) (by decide)
      (by simp +decide [convertCurrency, euroRates, euroModule]; norm_num)).2⟩

/-!
## Invoice generation: structural lemmas
-/

theorem invoicesAfterDelete_preserves (db : DB) (a : ℕ) (py : ℤ) (pm : ℕ) :
    (invoicesAfterDelete db a py pm).rates = db.rates ∧
    (invoicesAfterDelete db a py pm).snapshots = db.snapshots ∧
    (invoicesAfterDelete db a py pm).accountModules = db.accountModules ∧
    (invoicesAfterDelete db a py pm).createdCount = db.createdCount ∧
    (invoicesAfterDelete db a py pm).nextInvoiceId = db.nextInvoiceId := by
  unfold invoicesAfterDelete
  cases getInvoiceByAccountAndPeriod db a py pm <;> exact ⟨rfl, rfl, rfl, rfl, rfl⟩

theorem invoicesAfterDelete_invoices_sub (db : DB) (a : ℕ) (py : ℤ) (pm : ℕ) :
    ∀ x ∈ (invoicesAfterDelete db a py pm).invoices, x ∈ db.invoices := by
  unfold invoicesAfterDelete
  cases getInvoiceByAccountAndPeriod db a py pm with
  | none => exact fun x hx => hx
  | some e =>
    intro x hx
    exact (List.mem_filter.mp hx).1

theorem invoicesAfterDelete_lines_sub (db : DB) (a : ℕ) (py : ℤ) (pm : ℕ) :
    ∀ x ∈ (invoicesAfterDelete db a py pm).invoiceLines, x ∈ db.invoiceLines := by
  unfold invoicesAfterDelete
  cases getInvoiceByAccountAndPeriod db a py pm with
  | none => exact fun x hx => hx
  | some e =>
    intro x hx
    exact (List.mem_filter.mp hx).1

theorem invoicesAfterDelete_eq_of_find (db : DB) (a : ℕ) (py : ℤ) (pm : ℕ)
    (e : InvoiceRec) (he : getInvoiceByAccountAndPeriod db a py pm = some e) :
    invoicesAfterDelete db a py pm =
      { db with invoices := db.invoices.filter (fun i => i.id != e.id),
                invoiceLines := db.invoiceLines.filter (fun l => l.invoiceId != e.id) } := by
  unfold invoicesAfterDelete
  rw [he]
  rfl

theorem invoicesAfterDelete_eq_of_none (db : DB) (a : ℕ) (py : ℤ) (pm : ℕ)
    (he : getInvoiceByAccountAndPeriod db a py pm = none) :
    invoicesAfterDelete db a py pm = db := by
  unfold invoicesAfterDelete
  rw [he]

theorem createInvoiceLines_preserves (invoiceId : ℕ) :
    ∀ (lines : List InvoiceLineRec) (db : DB),
      (createInvoiceLines db invoiceId lines).invoices = db.invoices ∧
      (createInvoiceLines db invoiceId lines).snapshots = db.snapshots ∧
      (createInvoiceLines db invoiceId lines).accountModules = db.accountModules ∧
      (createInvoiceLines db invoiceId lines).rates = db.rates ∧
      (createInvoiceLines db invoiceId lines).createdCount = db.createdCount ∧
      (createInvoiceLines db invoiceId lines).nextInvoiceId = db.nextInvoiceId := by
  intro lines
  induction lines with
  | nil => intro db; exact ⟨rfl, rfl, rfl, rfl, rfl, rfl⟩
  | cons l ls ih =>
    intro db
    exact ih (createInvoiceLine db { l with invoiceId := invoiceId })

theorem calculateAverageUnits_congr (db db' : DB) (h : db.snapshots = db'.snapshots)
    (a : ℕ) (y : ℤ) (m : ℕ) :
    calculateAverageUnits db a y m = calculateAverageUnits db' a y m := by
  simp [calculateAverageUnits, getSnapshotsByAccountAndPeriod, h]

theorem eq_of_mem_filter_length_le_one {α : Type} (l : List α) (p : α → Bool)
    (h : (l.filter p).length ≤ 1) {x y : α} (hx : x ∈ l) (hpx : p x = true)
    (hy : y ∈ l) (hpy : p y = true) : x = y := by
  have hx' : x ∈ l.filter p := List.mem_filter.mpr ⟨hx, hpx⟩
  have hy' : y ∈ l.filter p := List.mem_filter.mpr ⟨hy, hpy⟩
  cases hl : l.filter p with
  | nil => rw [hl] at hx'; simp at hx'
  | cons z zs =>
    rw [hl] at hx' hy' h
    have hz : zs = [] := by
      simp only [List.length_cons] at h
      exact List.eq_nil_of_length_eq_zero (by omega)
    subst hz
    simp only [List.mem_singleton] at hx' hy'
    rw [hx', hy']

theorem find?_append_of_all_neg {α : Type} (p : α → Bool) :
    ∀ (l₁ l₂ : List α), (∀ x ∈ l₁, p x = false) →
      (l₁ ++ l₂).find? p = l₂.find? p := by
  intro l₁
  induction l₁ with
  | nil => intro l₂ _; rfl
  | cons a t ih =>
    intro l₂ h
    have ha : p a = false := h a (List.mem_cons_self a t)
    rw [List.cons_append, List.find?_cons_of_neg _ (by simp [ha])]
    exact ih l₂ (fun x hx => h x (List.mem_cons_of_mem a hx))

theorem no_match_after_delete (db : DB) (a : ℕ) (py : ℤ) (pm : ℕ)
    (hu : (db.invoices.filter (matchesPeriod a py pm)).length ≤ 1) :
    ∀ x ∈ (invoicesAfterDelete db a py pm).invoices, matchesPeriod a py pm x = false := by
  intro x hx
  cases he : getInvoiceByAccountAndPeriod db a py pm with
  | none =>
    rw [invoicesAfterDelete_eq_of_none db a py pm he] at hx
    have := List.find?_eq_none.mp he x hx
    simpa using this
  | some e =>
    rw [invoicesAfterDelete_eq_of_find db a py pm e he] at hx
    simp only [List.mem_filter] at hx
    by_contra hpx
    have hpx' : matchesPeriod a py pm x = true := by
      cases hmx : matchesPeriod a py pm x
      · exact absurd hmx hpx
      · rfl
    have hpe : matchesPeriod a py pm e = true := List.find?_some he
    have hme : e ∈ db.invoices := List.mem_of_find?_eq_some he
    have : x = e := eq_of_mem_filter_length_le_one db.invoices
      (matchesPeriod a py pm) hu hx.1 hpx' hme hpe
    subst this
    simp at hx

theorem generate_eq_empty (db : DB) (account : Account) (py : ℤ) (pm : ℕ) (rateDate : ℕ)
    (hm : (getAccountModules db account.id).isEmpty) :
    generateInvoiceForAccount db account py pm rateDate = (db, none) := by
  simp [generateInvoiceForAccount, hm]

theorem generate_eq_zero (db : DB) (account : Account) (py : ℤ) (pm : ℕ) (rateDate : ℕ)
    (hm : ¬(getAccountModules db account.id).isEmpty)
    (ht : invoiceTotal (computeInvoiceLines db.rates (targetCurrencyOf account) rateDate
      (calculateAverageUnits db account.id py pm) (getAccountModules db account.id)) = 0) :
    generateInvoiceForAccount db account py pm rateDate =
      (invoicesAfterDelete db account.id py pm, none) := by
  have hAD := invoicesAfterDelete_preserves db account.id py pm
  simp only [generateInvoiceForAccount, hAD.1]
  rw [if_neg (by simpa using hm), if_pos ht]

theorem generate_eq_some (db : DB) (account : Account) (py : ℤ) (pm : ℕ) (rateDate : ℕ)
    (hm : ¬(getAccountModules db account.id).isEmpty)
    (ht : invoiceTotal (computeInvoiceLines db.rates (targetCurrencyOf account) rateDate
      (calculateAverageUnits db account.id py pm) (getAccountModules db account.id)) ≠ 0) :
    generateInvoiceForAccount db account py pm rateDate =
      (createInvoiceLines
        (createInvoice (invoicesAfterDelete db account.id py pm)
          { id := db.nextInvoiceId, accountId := account.id, periodYear := py,
            periodMonth := pm,
            number := invoiceNumber account.contractNumber (db.createdCount account.id + 1),
            seq := db.createdCount account.id + 1,
            totalAmount := invoiceTotal (computeInvoiceLines db.rates (targetCurrencyOf account)
              rateDate (calculateAverageUnits db account.id py pm)
              (getAccountModules db account.id)),
            currency := targetCurrencyOf account, status := "draft" })
        db.nextInvoiceId
        (computeInvoiceLines db.rates (targetCurrencyOf account) rateDate
          (calculateAverageUnits db account.id py pm) (getAccountModules db account.id)),
       some { id := db.nextInvoiceId, accountId := account.id, periodYear := py,
              periodMonth := pm,
              number := invoiceNumber account.contractNumber (db.createdCount account.id + 1),
              seq := db.createdCount account.id + 1,
              totalAmount := invoiceTotal (computeInvoiceLines db.rates (targetCurrencyOf account)
                rateDate (calculateAverageUnits db account.id py pm)
                (getAccountModules db account.id)),
              currency := targetCurrencyOf account, status := "draft" }) := by
  have hAD := invoicesAfterDelete_preserves db account.id py pm
  simp only [generateInvoiceForAccount, hAD.1, countInvoicesByAccount, hAD.2.2.2.1,
    hAD.2.2.2.2]
  rw [if_neg (by simpa using hm), if_neg ht]

/-- C8.  Zero-amount suppression: with no assigned modules the store is
untouched and no invoice is returned; with a computed total of exactly
zero nothing is created (no new invoice row, no new line, id sequence
and creation counts unchanged); an invoice is returned only when the
account has modules and the total is nonzero. -/
theorem C8_zero_amount_suppression (db : DB) (account : Account) (py : ℤ) (pm : ℕ)
    (rateDate : ℕ) :
    (getAccountModules db account.id = [] →
      generateInvoiceForAccount db account py pm rateDate = (db, none)) ∧
    (invoiceTotal (computeInvoiceLines db.rates (targetCurrencyOf account) rateDate
        (calculateAverageUnits db account.id py pm) (getAccountModules db account.id)) = 0 →
      (generateInvoiceForAccount db account py pm rateDate).2 = none ∧
      (generateInvoiceForAccount db account py pm rateDate).1.nextInvoiceId = db.nextInvoiceId ∧
      (generateInvoiceForAccount db account py pm rateDate).1.createdCount = db.createdCount ∧
      (∀ i ∈ (generateInvoiceForAccount db account py pm rateDate).1.invoices,
        i ∈ db.invoices) ∧
      (∀ l ∈ (generateInvoiceForAccount db account py pm rateDate).1.invoiceLines,
        l ∈ db.invoiceLines)) ∧
    (∀ (db' : DB) (inv : InvoiceRec),
      generateInvoiceForAccount db account py pm rateDate = (db', some inv) →
      invoiceTotal (computeInvoiceLines db.rates (targetCurrencyOf account) rateDate
        (calculateAverageUnits db account.id py pm) (getAccountModules db account.id)) ≠ 0 ∧
      getAccountModules db account.id ≠ []) := by
  refine ⟨?_, ?_, ?_⟩
  · intro hm
    exact generate_eq_empty db account py pm rateDate (by simp [hm])
  · intro ht
    by_cases hm : (getAccountModules db account.id).isEmpty
    · rw [generate_eq_empty db account py pm rateDate hm]
      exact ⟨rfl, rfl, rfl, fun i hi => hi, fun l hl => hl⟩
    · rw [generate_eq_zero db account py pm rateDate hm ht]
      have hAD := invoicesAfterDelete_preserves db account.id py pm
      exact ⟨rfl, hAD.2.2.2.2, hAD.2.2.2.1,
        invoicesAfterDelete_invoices_sub db account.id py pm,
        invoicesAfterDelete_lines_sub db account.id py pm⟩
  · intro db' inv h
    constructor
    · intro ht
      by_cases hm : (getAccountModules db account.id).isEmpty
      · rw [generate_eq_empty db account py pm rateDate hm] at h
        simpa using congrArg Prod.snd h
      · rw [generate_eq_zero db account py pm rateDate hm ht] at h
        simpa using congrArg Prod.snd h
    · intro hm
      rw [generate_eq_empty db account py pm rateDate (by simp [hm])] at h
      simpa using congrArg Prod.snd h

/-- Witness for C8: an account with no modules, and one with a per-unit
module but no usage. -/
theorem C8_zero_amount_suppression_witness :
    generateInvoiceForAccount emptyDB kztAccount 2023 2 0 = (emptyDB, none) ∧
    (generateInvoiceForAccount zeroUsageDB kztAccount 2023 2 0).2 = none ∧
    (generateInvoiceForAccount zeroUsageDB kztAccount 2023 2 0).1.nextInvoiceId =
      zeroUsageDB.nextInvoiceId ∧
    (∀ i ∈ (generateInvoiceForAccount zeroUsageDB kztAccount 2023 2 0).1.invoices,
      i ∈ zeroUsageDB.invoices) := by
  have h0 : invoiceTotal (computeInvoiceLines zeroUsageDB.rates (targetCurrencyOf kztAccount) 0
      (calculateAverageUnits zeroUsageDB kztAccount.id 2023 2)
      (getAccountModules zeroUsageDB kztAccount.id)) = 0 := by
    have havg : calculateAverageUnits zeroUsageDB kztAccount.id 2023 2 = 0 := by
      simp [calculateAverageUnits, getSnapshotsByAccountAndPeriod, zeroUsageDB, febDB, kztAccount]
    rw [havg]
    simp +decide [invoiceTotal, computeInvoiceLines, computeLine, getAccountModules, zeroUsageDB,
      febDB, euroModule, euroRates, kztAccount, targetCurrencyOf, convertCurrency, mathRound,
      round2]
    norm_num [Int.floor_eq_iff]
  have hz := (C8_zero_amount_suppression zeroUsageDB kztAccount 2023 2 0).2.1 h0
  exact ⟨(C8_zero_amount_suppression emptyDB kztAccount 2023 2 0).1 rfl,
    hz.1, hz.2.1, hz.2.2.2.1⟩

/-- C10.  Zero-total regeneration destroys the prior invoice: when an
invoice exists for (account, period), the account still has modules and
the freshly computed total is zero, the existing invoice and its lines
are deleted and nothing is created, leaving the period with no invoice;
only the no-modules case returns before the delete and leaves the prior
invoice intact. -/
theorem C10_zero_total_regeneration (db : DB) (account : Account) (py : ℤ) (pm : ℕ)
    (rateDate : ℕ) (existing : InvoiceRec)
    (hu : (db.invoices.filter (matchesPeriod account.id py pm)).length ≤ 1)
    (he : getInvoiceByAccountAndPeriod db account.id py pm = some existing)
    (ht : invoiceTotal (computeInvoiceLines db.rates (targetCurrencyOf account) rateDate
      (calculateAverageUnits db account.id py pm) (getAccountModules db account.id)) = 0) :
    (getAccountModules db account.id ≠ [] →
      generateInvoiceForAccount db account py pm rateDate =
        ({ db with invoices := db.invoices.filter (fun i => i.id != existing.id),
                   invoiceLines := db.invoiceLines.filter (fun l => l.invoiceId != existing.id) },
         none) ∧
      (generateInvoiceForAccount db account py pm rateDate).1.invoices.filter
        (matchesPeriod account.id py pm) = []) ∧
    (getAccountModules db account.id = [] →
      generateInvoiceForAccount db account py pm rateDate = (db, none)) := by
  constructor
  · intro hm
    have hm' : ¬(getAccountModules db account.id).isEmpty := by simpa using hm
    have hgen := generate_eq_zero db account py pm rateDate hm' ht
    constructor
    · rw [hgen, invoicesAfterDelete_eq_of_find db account.id py pm existing he]
    · rw [hgen]
      exact List.filter_eq_nil_iff.mpr (fun x hx => by
        simpa using no_match_after_delete db account.id py pm hu x hx)
  · intro hm
    exact generate_eq_empty db account py pm rateDate (by simp [hm])

/-- Witness for C10 on the stale-invoice store: the old invoice is
deleted, nothing replaces it. -/
theorem C10_zero_total_regeneration_witness :
    generateInvoiceForAccount staleDB kztAccount 2023 2 0 =
      ({ staleDB with
          invoices := staleDB.invoices.filter (fun i => i.id != staleInvoice.id),
          invoiceLines := staleDB.invoiceLines.filter
            (fun l => l.invoiceId != staleInvoice.id) }, none) ∧
    (generateInvoiceForAccount staleDB kztAccount 2023 2 0).1.invoices.filter
      (matchesPeriod kztAccount.id 2023 2) = [] := by
  have h0 : invoiceTotal (computeInvoiceLines staleDB.rates (targetCurrencyOf kztAccount) 0
      (calculateAverageUnits staleDB kztAccount.id 2023 2)
      (getAccountModules staleDB kztAccount.id)) = 0 := by
    have havg : calculateAverageUnits staleDB kztAccount.id 2023 2 = 0 := by
      simp [calculateAverageUnits, getSnapshotsByAccountAndPeriod, staleDB, zeroUsageDB,
        febDB, kztAccount]
    rw [havg]
    simp +decide [invoiceTotal, computeInvoiceLines, computeLine, getAccountModules, staleDB,
      zeroUsageDB, febDB, euroModule, euroRates, kztAccount, targetCurrencyOf, convertCurrency,
      mathRound, round2]
    norm_num [Int.floor_eq_iff]
  exact (C10_zero_total_regeneration staleDB kztAccount 2023 2 0 staleInvoice
    (by decide) (by decide) h0).1 (by decide)

/-- C3.  Regenerating an invoice for the same (account, period) with
unchanged inputs yields a single current invoice for that period with
an identical total, a sequential number strictly greater than the
deleted prior invoice's (the sequence increments across regeneration),
formatted as contract/sequence (or the bare sequence), and the prior
invoice row is gone. -/
theorem C3_regeneration_numbering (db0 : DB) (account : Account) (py : ℤ) (pm : ℕ)
    (rateDate : ℕ) (db1 db2 : DB) (inv1 inv2 : InvoiceRec)
    (hu : (db0.invoices.filter (matchesPeriod account.id py pm)).length ≤ 1)
    (hfresh : ∀ i ∈ db0.invoices, i.id < db0.nextInvoiceId)
    (h1 : generateInvoiceForAccount db0 account py pm rateDate = (db1, some inv1))
    (h2 : generateInvoiceForAccount db1 account py pm rateDate = (db2, some inv2)) :
    db2.invoices.filter (matchesPeriod account.id py pm) = [inv2] ∧
    inv2.totalAmount = inv1.totalAmount ∧
    inv1.seq < inv2.seq ∧
    inv2.number = invoiceNumber account.contractNumber inv2.seq ∧
    inv1 ∉ db2.invoices := by
  have hAD := invoicesAfterDelete_preserves db0 account.id py pm
  have hm1 : ¬(getAccountModules db0 account.id).isEmpty := by
    intro hm
    rw [generate_eq_empty db0 account py pm rateDate hm] at h1
    simpa using congrArg Prod.snd h1
  have ht1 : invoiceTotal (computeInvoiceLines db0.rates (targetCurrencyOf account) rateDate
      (calculateAverageUnits db0 account.id py pm) (getAccountModules db0 account.id)) ≠ 0 := by
    intro ht
    rw [generate_eq_zero db0 account py pm rateDate hm1 ht] at h1
    simpa using congrArg Prod.snd h1
  rw [generate_eq_some db0 account py pm rateDate hm1 ht1] at h1
  have hinv1 : inv1 =
      { id := db0.nextInvoiceId, accountId := account.id, periodYear := py, periodMonth := pm,
        number := invoiceNumber account.contractNumber (db0.createdCount account.id + 1),
        seq := db0.createdCount account.id + 1,
        totalAmount := invoiceTotal (computeInvoiceLines db0.rates (targetCurrencyOf account)
          rateDate (calculateAverageUnits db0 account.id py pm)
          (getAccountModules db0 account.id)),
        currency := targetCurrencyOf account, status := "draft" } := by
    have := congrArg Prod.snd h1
    simpa using this.symm
  have hdb1 : db1 = createInvoiceLines
      (createInvoice (invoicesAfterDelete db0 account.id py pm)
        { id := db0.nextInvoiceId, accountId := account.id, periodYear := py, periodMonth := pm,
          number := invoiceNumber account.contractNumber (db0.createdCount account.id + 1),
          seq := db0.createdCount account.id + 1,
          totalAmount := invoiceTotal (computeInvoiceLines db0.rates (targetCurrencyOf account)
            rateDate (calculateAverageUnits db0 account.id py pm)
            (getAccountModules db0 account.id)),
          currency := targetCurrencyOf account, status := "draft" })
      db0.nextInvoiceId
      (computeInvoiceLines db0.rates (targetCurrencyOf account) rateDate
        (calculateAverageUnits db0 account.id py pm) (getAccountModules db0 account.id)) :=
    (congrArg Prod.fst h1).symm
  -- db1 component facts
  have hCL1 := createInvoiceLines_preserves db0.nextInvoiceId
    (computeInvoiceLines db0.rates (targetCurrencyOf account) rateDate
      (calculateAverageUnits db0 account.id py pm) (getAccountModules db0 account.id))
    (createInvoice (invoicesAfterDelete db0 account.id py pm)
      { id := db0.nextInvoiceId, accountId := account.id, periodYear := py, periodMonth := pm,
        number := invoiceNumber account.contractNumber (db0.createdCount account.id + 1),
        seq := db0.createdCount account.id + 1,
        totalAmount := invoiceTotal (computeInvoiceLines db0.rates (targetCurrencyOf account)
          rateDate (calculateAverageUnits db0 account.id py pm)
          (getAccountModules db0 account.id)),
        currency := targetCurrencyOf account, status := "draft" })
  have hdb1invoices : db1.invoices = (invoicesAfterDelete db0 account.id py pm).invoices ++
      [{ id := db0.nextInvoiceId, accountId := account.id, periodYear := py, periodMonth := pm,
         number := invoiceNumber account.contractNumber (db0.createdCount account.id + 1),
         seq := db0.createdCount account.id + 1,
         totalAmount := invoiceTotal (computeInvoiceLines db0.rates (targetCurrencyOf account)
           rateDate (calculateAverageUnits db0 account.id py pm)
           (getAccountModules db0 account.id)),
         currency := targetCurrencyOf account, status := "draft" }] := by
    rw [hdb1, hCL1.1]
    rfl
  have hdb1rates : db1.rates = db0.rates := by
    rw [hdb1, hCL1.2.2.2.1]
    exact hAD.1
  have hdb1snapshots : db1.snapshots = db0.snapshots := by
    rw [hdb1, hCL1.2.1]
    exact hAD.2.1
  have hdb1mods : db1.accountModules = db0.accountModules := by
    rw [hdb1, hCL1.2.2.1]
    exact hAD.2.2.1
  have hdb1count : db1.createdCount account.id = db0.createdCount account.id + 1 := by
    rw [hdb1, hCL1.2.2.2.2.1]
    show (if account.id = account.id then _ + 1 else _) = _
    rw [if_pos rfl, hAD.2.2.2.1]
  have hdb1next : db1.nextInvoiceId = db0.nextInvoiceId + 1 := by
    rw [hdb1, hCL1.2.2.2.2.2]
    show (invoicesAfterDelete db0 account.id py pm).nextInvoiceId + 1 = _
    rw [hAD.2.2.2.2]
  -- run 2 inputs coincide with run 1
  have hmods : getAccountModules db1 account.id = getAccountModules db0 account.id := by
    simp only [getAccountModules, hdb1mods]
  have havg : calculateAverageUnits db1 account.id py pm =
      calculateAverageUnits db0 account.id py pm :=
    calculateAverageUnits_congr db1 db0 hdb1snapshots account.id py pm
  have hlines : computeInvoiceLines db1.rates (targetCurrencyOf account) rateDate
      (calculateAverageUnits db1 account.id py pm) (getAccountModules db1 account.id) =
      computeInvoiceLines db0.rates (targetCurrencyOf account) rateDate
      (calculateAverageUnits db0 account.id py pm) (getAccountModules db0 account.id) := by
    rw [hdb1rates, havg, hmods]
  have hm2 : ¬(getAccountModules db1 account.id).isEmpty := by
    rw [hmods]; exact hm1
  have ht2 : invoiceTotal (computeInvoiceLines db1.rates (targetCurrencyOf account) rateDate
      (calculateAverageUnits db1 account.id py pm) (getAccountModules db1 account.id)) ≠ 0 := by
    rw [hlines]; exact ht1
  rw [generate_eq_some db1 account py pm rateDate hm2 ht2] at h2
  have hinv2 : inv2 =
      { id := db1.nextInvoiceId, accountId := account.id, periodYear := py, periodMonth := pm,
        number := invoiceNumber account.contractNumber (db1.createdCount account.id + 1),
        seq := db1.createdCount account.id + 1,
        totalAmount := invoiceTotal (computeInvoiceLines db1.rates (targetCurrencyOf account)
          rateDate (calculateAverageUnits db1 account.id py pm)
          (getAccountModules db1 account.id)),
        currency := targetCurrencyOf account, status := "draft" } := by
    have := congrArg Prod.snd h2
    simpa using this.symm
  have hdb2 : db2 = createInvoiceLines
      (createInvoice (invoicesAfterDelete db1 account.id py pm)
        { id := db1.nextInvoiceId, accountId := account.id, periodYear := py, periodMonth := pm,
          number := invoiceNumber account.contractNumber (db1.createdCount account.id + 1),
          seq := db1.createdCount account.id + 1,
          totalAmount := invoiceTotal (computeInvoiceLines db1.rates (targetCurrencyOf account)
            rateDate (calculateAverageUnits db1 account.id py pm)
            (getAccountModules db1 account.id)),
          currency := targetCurrencyOf account, status := "draft" })
      db1.nextInvoiceId
      (computeInvoiceLines db1.rates (targetCurrencyOf account) rateDate
        (calculateAverageUnits db1 account.id py pm) (getAccountModules db1 account.id)) :=
    (congrArg Prod.fst h2).symm
  -- the invoice found on run 2 is inv1
  have hmatch1 : matchesPeriod account.id py pm
      { id := db0.nextInvoiceId, accountId := account.id, periodYear := py, periodMonth := pm,
        number := invoiceNumber account.contractNumber (db0.createdCount account.id + 1),
        seq := db0.createdCount account.id + 1,
        totalAmount := invoiceTotal (computeInvoiceLines db0.rates (targetCurrencyOf account)
          rateDate (calculateAverageUnits db0 account.id py pm)
          (getAccountModules db0 account.id)),
        currency := targetCurrencyOf account, status := "draft" } = true := by
    simp [matchesPeriod]
  have hnomatch0 := no_match_after_delete db0 account.id py pm hu
  have hfind1 : getInvoiceByAccountAndPeriod db1 account.id py pm = some
      { id := db0.nextInvoiceId, accountId := account.id, periodYear := py, periodMonth := pm,
        number := invoiceNumber account.contractNumber (db0.createdCount account.id + 1),
        seq := db0.createdCount account.id + 1,
        totalAmount := invoiceTotal (computeInvoiceLines db0.rates (targetCurrencyOf account)
          rateDate (calculateAverageUnits db0 account.id py pm)
          (getAccountModules db0 account.id)),
        currency := targetCurrencyOf account, status := "draft" } := by
    simp only [getInvoiceByAccountAndPeriod]
    rw [hdb1invoices, find?_append_of_all_neg _ _ _ hnomatch0]
    rw [List.find?_cons_of_pos _ hmatch1]
  -- deleting inv1 on run 2 restores the run-1 post-delete rows
  have hsub0 := invoicesAfterDelete_invoices_sub db0 account.id py pm
  have hAD1inv : (invoicesAfterDelete db1 account.id py pm).invoices =
      (invoicesAfterDelete db0 account.id py pm).invoices := by
    rw [invoicesAfterDelete_eq_of_find db1 account.id py pm _ hfind1]
    show db1.invoices.filter _ = _
    rw [hdb1invoices, List.filter_append]
    have hkeep : (invoicesAfterDelete db0 account.id py pm).invoices.filter
        (fun i => i.id != db0.nextInvoiceId) =
        (invoicesAfterDelete db0 account.id py pm).invoices := by
      refine List.filter_eq_self.mpr ?_
      intro a ha
      have := hfresh a (hsub0 a ha)
      simp only [bne_iff_ne, ne_eq]
      omega
    rw [hkeep]
    simp
  have hCL2 := createInvoiceLines_preserves db1.nextInvoiceId
    (computeInvoiceLines db1.rates (targetCurrencyOf account) rateDate
      (calculateAverageUnits db1 account.id py pm) (getAccountModules db1 account.id))
    (createInvoice (invoicesAfterDelete db1 account.id py pm)
      { id := db1.nextInvoiceId, accountId := account.id, periodYear := py, periodMonth := pm,
        number := invoiceNumber account.contractNumber (db1.createdCount account.id + 1),
        seq := db1.createdCount account.id + 1,
        totalAmount := invoiceTotal (computeInvoiceLines db1.rates (targetCurrencyOf account)
          rateDate (calculateAverageUnits db1 account.id py pm)
          (getAccountModules db1 account.id)),
        currency := targetCurrencyOf account, status := "draft" })
  have hdb2invoices : db2.invoices = (invoicesAfterDelete db0 account.id py pm).invoices ++
      [{ id := db1.nextInvoiceId, accountId := account.id, periodYear := py, periodMonth := pm,
         number := invoiceNumber account.contractNumber (db1.createdCount account.id + 1),
         seq := db1.createdCount account.id + 1,
         totalAmount := invoiceTotal (computeInvoiceLines db1.rates (targetCurrencyOf account)
           rateDate (calculateAverageUnits db1 account.id py pm)
           (getAccountModules db1 account.id)),
         currency := targetCurrencyOf account, status := "draft" }] := by
    rw [hdb2, hCL2.1]
    show (invoicesAfterDelete db1 account.id py pm).invoices ++ _ = _
    rw [hAD1inv]
  refine ⟨?_, ?_, ?_, ?_, ?_⟩
  · rw [hdb2invoices, List.filter_append,
      List.filter_eq_nil_iff.mpr (fun x hx => by simpa using hnomatch0 x hx), hinv2]
    simp [matchesPeriod]
  · rw [hinv1, hinv2]
    show invoiceTotal (computeInvoiceLines db1.rates (targetCurrencyOf account) rateDate
      (calculateAverageUnits db1 account.id py pm) (getAccountModules db1 account.id)) =
      invoiceTotal (computeInvoiceLines db0.rates (targetCurrencyOf account) rateDate
      (calculateAverageUnits db0 account.id py pm) (getAccountModules db0 account.id))
    rw [hlines]
  · rw [hinv1, hinv2]
    show db0.createdCount account.id + 1 < db1.createdCount account.id + 1
    omega
  · rw [hinv2]
  · rw [hinv1, hdb2invoices]
    intro hmem
    rcases List.mem_append.mp hmem with hin | hin
    · have := hfresh _ (hsub0 _ hin)
      simp only [] at this
      omega
    · rw [List.mem_singleton] at hin
      have hid := congrArg InvoiceRec.id hin
      simp only [] at hid
      omega

/-- Witness for C3: generating twice on the fixed-module store leaves a
single current invoice, number C-42/2, sequence 2 after the deleted
sequence 1. -/
theorem C3_regeneration_numbering_witness :
    (generateInvoiceForAccount (generateInvoiceForAccount fixedDB kztAccount 2023 2 0).1
        kztAccount 2023 2 0).1.invoices.filter (matchesPeriod kztAccount.id 2023 2) =
      [{ id := 2, accountId := 1, periodYear := 2023, periodMonth := 2, number := "C-42/2",
         seq := 2, totalAmount := 100, currency := "KZT", status := "draft" }] ∧
    (1 : ℕ) < 2 ∧
    "C-42/2" = invoiceNumber kztAccount.contractNumber 2 ∧
    ({ id := 1, accountId := 1, periodYear := 2023, periodMonth := 2, number := "C-42/1",
       seq := 1, totalAmount := 100, currency := "KZT", status := "draft" } : InvoiceRec) ∉
      (generateInvoiceForAccount (generateInvoiceForAccount fixedDB kztAccount 2023 2 0).1
        kztAccount 2023 2 0).1.invoices := by
  have hm1 : ¬(getAccountModules fixedDB kztAccount.id).isEmpty := by decide
  have htot : invoiceTotal (computeInvoiceLines fixedDB.rates (targetCurrencyOf kztAccount) 0
      (calculateAverageUnits fixedDB kztAccount.id 2023 2)
      (getAccountModules fixedDB kztAccount.id)) = 100 := by
    simp +decide [invoiceTotal, computeInvoiceLines, computeLine, getAccountModules, fixedDB,
      fixedModule, kztAccount, targetCurrencyOf]
  have ht1 : invoiceTotal (computeInvoiceLines fixedDB.rates (targetCurrencyOf kztAccount) 0
      (calculateAverageUnits fixedDB kztAccount.id 2023 2)
      (getAccountModules fixedDB kztAccount.id)) ≠ 0 := by
    rw [htot]; norm_num
  have h1 := generate_eq_some fixedDB kztAccount 2023 2 0 hm1 ht1
  have h1snd : (generateInvoiceForAccount fixedDB kztAccount 2023 2 0).2 =
      some { id := 1, accountId := 1, periodYear := 2023, periodMonth := 2, number := "C-42/1",
             seq := 1, totalAmount := 100, currency := "KZT", status := "draft" } := by
    rw [h1, htot]
    decide
  have h1' : generateInvoiceForAccount fixedDB kztAccount 2023 2 0 =
      ((generateInvoiceForAccount fixedDB kztAccount 2023 2 0).1,
       some { id := 1, accountId := 1, periodYear := 2023, periodMonth := 2, number := "C-42/1",
              seq := 1, totalAmount := 100, currency := "KZT", status := "draft" }) := by
    rw [← h1snd]
  -- fields of the store after the first run
  have hacc1 : (generateInvoiceForAccount fixedDB kztAccount 2023 2 0).1.accountModules =
      fixedDB.accountModules := by
    rw [h1]
    show (createInvoiceLines _ _ _).accountModules = _
    rw [(createInvoiceLines_preserves _ _ _).2.2.1]
    exact (invoicesAfterDelete_preserves fixedDB kztAccount.id 2023 2).2.2.1
  have hrates1 : (generateInvoiceForAccount fixedDB kztAccount 2023 2 0).1.rates =
      fixedDB.rates := by
    rw [h1]
    show (createInvoiceLines _ _ _).rates = _
    rw [(createInvoiceLines_preserves _ _ _).2.2.2.1]
    exact (invoicesAfterDelete_preserves fixedDB kztAccount.id 2023 2).1
  have hsnap1 : (generateInvoiceForAccount fixedDB kztAccount 2023 2 0).1.snapshots =
      fixedDB.snapshots := by
    rw [h1]
    show (createInvoiceLines _ _ _).snapshots = _
    rw [(createInvoiceLines_preserves _ _ _).2.1]
    exact (invoicesAfterDelete_preserves fixedDB kztAccount.id 2023 2).2.1
  have hcount1 : (generateInvoiceForAccount fixedDB kztAccount 2023 2 0).1.createdCount
      kztAccount.id = 1 := by
    rw [h1]
    show (createInvoiceLines _ _ _).createdCount kztAccount.id = 1
    rw [(createInvoiceLines_preserves _ _ _).2.2.2.2.1]
    simp only [createInvoice]
    rw [(invoicesAfterDelete_preserves fixedDB kztAccount.id 2023 2).2.2.2.1]
    decide
  have hnext1 : (generateInvoiceForAccount fixedDB kztAccount 2023 2 0).1.nextInvoiceId = 2 := by
    rw [h1]
    show (createInvoiceLines _ _ _).nextInvoiceId = 2
    rw [(createInvoiceLines_preserves _ _ _).2.2.2.2.2]
    simp only [createInvoice]
    rw [(invoicesAfterDelete_preserves fixedDB kztAccount.id 2023 2).2.2.2.2]
    decide
  have hmods2 : getAccountModules (generateInvoiceForAccount fixedDB kztAccount 2023 2 0).1
      kztAccount.id = getAccountModules fixedDB kztAccount.id := by
    simp only [getAccountModules, hacc1]
  have havg2 : calculateAverageUnits (generateInvoiceForAccount fixedDB kztAccount 2023 2 0).1
      kztAccount.id 2023 2 = calculateAverageUnits fixedDB kztAccount.id 2023 2 :=
    calculateAverageUnits_congr _ fixedDB hsnap1 kztAccount.id 2023 2
  have htot2 : invoiceTotal (computeInvoiceLines
      (generateInvoiceForAccount fixedDB kztAccount 2023 2 0).1.rates
      (targetCurrencyOf kztAccount) 0
      (calculateAverageUnits (generateInvoiceForAccount fixedDB kztAccount 2023 2 0).1
        kztAccount.id 2023 2)
      (getAccountModules (generateInvoiceForAccount fixedDB kztAccount 2023 2 0).1
        kztAccount.id)) = 100 := by
    rw [hrates1, havg2, hmods2]
    exact htot
  have hm2 : ¬(getAccountModules (generateInvoiceForAccount fixedDB kztAccount 2023 2 0).1
      kztAccount.id).isEmpty := by
    rw [hmods2]; exact hm1
  have h2 := generate_eq_some (generateInvoiceForAccount fixedDB kztAccount 2023 2 0).1
    kztAccount 2023 2 0 hm2 (by rw [htot2]; norm_num)
  have h2snd : (generateInvoiceForAccount
      (generateInvoiceForAccount fixedDB kztAccount 2023 2 0).1 kztAccount 2023 2 0).2 =
      some { id := 2, accountId := 1, periodYear := 2023, periodMonth := 2, number := "C-42/2",
             seq := 2, totalAmount := 100, currency := "KZT", status := "draft" } := by
    rw [h2, htot2, hcount1, hnext1]
    decide
  have h2' : generateInvoiceForAccount
      (generateInvoiceForAccount fixedDB kztAccount 2023 2 0).1 kztAccount 2023 2 0 =
      ((generateInvoiceForAccount
        (generateInvoiceForAccount fixedDB kztAccount 2023 2 0).1 kztAccount 2023 2 0).1,
       some { id := 2, accountId := 1, periodYear := 2023, periodMonth := 2, number := "C-42/2",
              seq := 2, totalAmount := 100, currency := "KZT", status := "draft" }) := by
    rw [← h2snd]
  have main := C3_regeneration_numbering fixedDB kztAccount 2023 2 0
    (generateInvoiceForAccount fixedDB kztAccount 2023 2 0).1
    (generateInvoiceForAccount
      (generateInvoiceForAccount fixedDB kztAccount 2023 2 0).1 kztAccount 2023 2 0).1
    { id := 1, accountId := 1, periodYear := 2023, periodMonth := 2, number := "C-42/1",
      seq := 1, totalAmount := 100, currency := "KZT", status := "draft" }
    { id := 2, accountId := 1, periodYear := 2023, periodMonth := 2, number := "C-42/2",
      seq := 2, totalAmount := 100, currency := "KZT", status := "draft" }
    (by decide) (by decide) h1' h2'
  exact ⟨main.1, main.2.2.1, main.2.2.2.1, main.2.2.2.2⟩

end WialonBilling
